import Mathlib

/-!
# Verification of `data_table_collector.py`

A shallow embedding of the Seoul open-data table collector: URL construction
(`build_request_url`), payload validation and row extraction (`_extract_rows`),
DataFrame materialisation (`pd.DataFrame(rows)`), CSV export (`save_csv` /
`DataFrame.to_csv`), image-table truncation (`render_table_image`), and the
CLI pipeline (`main`).  JSON values decoded by `response.json()` are modelled
by the inductive `Json`; Python dicts are association lists with the keys
unique (JSON object decoding cannot produce duplicates); machine-level
concerns (HTTP transport, matplotlib rasterisation, the filesystem) are
modelled by their observable effects only.
-/

namespace DataTableCollector

/-- A decoded JSON value (the result of `response.json()`).  Numbers are
modelled as integers; no claim depends on numeric semantics. -/
inductive Json where
  | null : Json
  | bool : Bool → Json
  | num : Int → Json
  | str : String → Json
  | arr : List Json → Json
  | obj : List (String × Json) → Json
deriving Repr

/-- A decoded JSON object / Python dict: an association list.  Decoded JSON
objects have unique keys; theorems carry `Nodup` hypotheses where it matters. -/
abbrev Dict := List (String × Json)

/-- Python `d.get(k)`: `Some` of the stored value, or `none` when absent. -/
def dictGet (d : Dict) (k : String) : Option Json :=
  (d.find? (fun kv => kv.1 = k)).map (fun kv => kv.2)

/-- Python truthiness of a decoded JSON value (`bool(v)`):
`None`, `False`, `0`, `""`, `[]` and `{}` are falsy. -/
def Json.truthy : Json → Bool
  | .null => false
  | .bool b => b
  | .num n => n != 0
  | .str s => s != ""
  | .arr xs => !xs.isEmpty
  | .obj kvs => !kvs.isEmpty

/-- Whether a JSON value is an object (a Python mapping). -/
def Json.isObj : Json → Bool
  | .obj _ => true
  | _ => false

/-- The failure cases of `SeoulOpenAPIError` raised by `_extract_rows`:
the service payload is missing/falsy; the API reported a non-success
result code (carrying `result.get('CODE')` and `result.get('MESSAGE')`);
the `row` field is absent (or `null`); the `row` field is not a list. -/
inductive ApiFailure where
  | servicePayloadMissing : ApiFailure
  | apiError : Option Json → Option Json → ApiFailure
  | missingRowField : ApiFailure
  | rowNotList : ApiFailure
deriving Repr

/-- A Python exception escaping `_extract_rows`: either the declared
`SeoulOpenAPIError`, or an uncaught `AttributeError` from calling `.get`
on a non-dict (e.g. `payload[service]` truthy but not a mapping). -/
inductive PyExc where
  | seoulOpenAPIError : ApiFailure → PyExc
  | attributeError : PyExc
deriving Repr

mutual

/-- Python `repr` of a decoded JSON value, as used when container values are
interpolated into an f-string.  String escaping inside `repr` is elided
(no theorem evaluates `repr` on a string containing a quote). -/
def Json.pyRepr : Json → String
  | .null => "None"
  | .bool true => "True"
  | .bool false => "False"
  | .num n => toString n
  | .str s => "\x27" ++ s ++ "\x27"
  | .arr xs => "[" ++ pyReprList xs ++ "]"
  | .obj kvs => "\x7b" ++ pyReprObj kvs ++ "\x7d"

/-- Comma-separated `repr`s of list elements. -/
def pyReprList : List Json → String
  | [] => ""
  | [x] => x.pyRepr
  | x :: xs => x.pyRepr ++ ", " ++ pyReprList xs

/-- Comma-separated `'key': repr(value)` entries of a dict. -/
def pyReprObj : List (String × Json) → String
  | [] => ""
  | [kv] => "\x27" ++ kv.1 ++ "\x27: " ++ kv.2.pyRepr
  | kv :: kvs => "\x27" ++ kv.1 ++ "\x27: " ++ kv.2.pyRepr ++ ", " ++ pyReprObj kvs

end

/-- Python `str` of a decoded JSON value (f-string interpolation). -/
def Json.pyStr : Json → String
  | .null => "None"
  | .bool true => "True"
  | .bool false => "False"
  | .num n => toString n
  | .str s => s
  | .arr xs => (Json.arr xs).pyRepr
  | .obj kvs => (Json.obj kvs).pyRepr

/-- Python `str` of an optional value (`str(d.get(k))`): `None` prints
as `"None"`. -/
def pyStrOpt : Option Json → String
  | none => "None"
  | some v => v.pyStr

/-- The message string of each `SeoulOpenAPIError` raised by
`_extract_rows`, exactly as the source formats it. -/
def ApiFailure.message : ApiFailure → String
  | .servicePayloadMissing =>
      "Unexpected API response: could not find service payload. " ++
      "Check the service name or API key."
  | .apiError code msg =>
      "API returned error " ++ pyStrOpt code ++ ": " ++ pyStrOpt msg
  | .missingRowField => "API response does not include a \x27row\x27 field."
  | .rowNotList => "API response \x27row\x27 field is not a list."

/-- `_extract_rows(service, payload)`: validate the payload and return the
row list, following the source line by line:

* `service_payload = payload.get(service)`; `if not service_payload: raise`;
* `.get("RESULT", {}).get("CODE") != "INFO-000"` raises with
  `result.get('CODE')` / `result.get('MESSAGE')` (an `AttributeError`
  escapes when the stored `RESULT` value is not a dict);
* `rows = service_payload.get("row")`; `if rows is None: raise` (a stored
  JSON `null` is Python `None`, hence also this branch);
* `if not isinstance(rows, list): raise`. -/
def extract_rows (service : String) (payload : Dict) :
    Except PyExc (List Json) :=
  match dictGet payload service with
  | none => .error (.seoulOpenAPIError .servicePayloadMissing)
  | some sp =>
    if !sp.truthy then .error (.seoulOpenAPIError .servicePayloadMissing)
    else
      match sp with
      | .obj spd =>
        match (dictGet spd "RESULT").getD (.obj []) with
        | .obj rd =>
          match dictGet rd "CODE" with
          | some (.str "INFO-000") =>
            match dictGet spd "row" with
            | none => .error (.seoulOpenAPIError .missingRowField)
            | some .null => .error (.seoulOpenAPIError .missingRowField)
            | some (.arr rows) => .ok rows
            | some _ => .error (.seoulOpenAPIError .rowNotList)
          | _ =>
            .error (.seoulOpenAPIError
              (.apiError (dictGet rd "CODE") (dictGet rd "MESSAGE")))
        | _ => .error .attributeError
      | _ => .error .attributeError

def DEFAULT_SERVICE : String := "ListAirQualityByDistrictService"

def DEFAULT_START_INDEX : Int := 1

def DEFAULT_END_INDEX : Int := 5

/-- `build_request_url`: the fixed URL template of the Seoul open API,
mirroring the two concatenated f-string pieces of the source. -/
def build_request_url (api_key service : String)
    (start_index end_index : Int) (payload_format : String) : String :=
  s!"http://openAPI.seoul.go.kr:8088/{api_key}/{payload_format}/" ++
  s!"{service}/{start_index}/{end_index}/"

/-- The keys of a record, in stored order. -/
def recordKeys (r : Dict) : List String := r.map (fun kv => kv.1)

/-- Append to `acc` the keys of `ks` not yet seen, preserving first-seen
order (pandas accumulates the unique keys of the row dicts sequentially). -/
def addCols (acc : List String) (ks : List String) : List String :=
  ks.foldl (fun a k => if a.contains k then a else a ++ [k]) acc

/-- The column index `pd.DataFrame(rows)` infers from a list of dicts:
the union of the records' keys in order of first appearance. -/
def dataFrameColumns (records : List Dict) : List String :=
  records.foldl (fun acc r => addCols acc (recordKeys r)) []

/-- A `pandas.DataFrame`: a column index plus the row records.  A cell is
`dictGet r c`; `none` is the `NaN` fill for a key missing from a record. -/
structure DataFrame where
  columns : List String
  records : List Dict
deriving Repr

/-- `pd.DataFrame(rows)` for a list of row mappings. -/
def mkDataFrame (records : List Dict) : DataFrame :=
  ⟨dataFrameColumns records, records⟩

/-- `df.values`: the cell matrix, one row per record, one entry per column. -/
def dfValues (df : DataFrame) : List (List (Option Json)) :=
  df.records.map (fun r => df.columns.map (fun c => dictGet r c))

/-- `df.head(n)` (pandas): for `n ≥ 0` the first `n` rows; for `n < 0`
all rows but the last `|n|`. -/
def dfHead (records : List Dict) (n : Int) : List Dict :=
  if 0 ≤ n then records.take n.toNat
  else records.take (records.length - (-n).toNat)

/-- The grid content `render_table_image` hands to `ax.table`: the column
labels and the cell matrix of the (possibly truncated) display frame.
`max_rows = none` models Python `max_rows=None`. -/
def render_table_image (df : DataFrame) (max_rows : Option Int) :
    List String × List (List (Option Json)) :=
  let display :=
    match max_rows with
    | some m => if (df.records.length : Int) > m then dfHead df.records m
                else df.records
    | none => df.records
  (df.columns, dfValues ⟨df.columns, display⟩)

/-- Observable side effects of one CLI run, in order of occurrence. -/
inductive Event where
  | wroteCsv : Event
  | wroteImage : Event
  | printedPaths : Event
deriving Repr, DecidableEq

/-- The failure surfaced by a run: HTTP/transport/decode trouble before
extraction, an extraction exception, or a filesystem failure of one of
the two writes. -/
inductive RunError where
  | httpError : RunError
  | fetchError : PyExc → RunError
  | csvError : RunError
  | imageError : RunError

/-- `main` after argument parsing: `fetch_table` (HTTP → decode →
`_extract_rows` → DataFrame), then `save_csv`, then `render_table_image`,
then the confirmation prints.  An uncaught exception at any stage stops
the run there; `http` is the transport/decode outcome, `csvOk` / `imageOk`
the filesystem outcomes of the two writes.  Returns the events that
happened (in order) and the terminating error, if any. -/
def run_main (service : String) (http : Except Unit Dict)
    (csvOk imageOk : Bool) : List Event × Option RunError :=
  match http with
  | .error _ => ([], some .httpError)
  | .ok payload =>
    match extract_rows service payload with
    | .error e => ([], some (.fetchError e))
    | .ok _ =>
      if !csvOk then ([], some .csvError)
      else if !imageOk then ([.wroteCsv], some .imageError)
      else ([.wroteCsv, .wroteImage, .printedPaths], none)

/-! ## CSV serialisation

`df.to_csv(path, index=False, encoding="utf-8")` writes the column names,
then one delimited line per record, quoting fields QUOTE_MINIMAL style
(a field is quoted iff it contains the delimiter, the quote character, or
a line-terminator character, with embedded quotes doubled) and terminating
each line with a newline.  The reader below is a standard CSV parser used
to state the export/parse round trip. -/

/-- A character forcing a field to be quoted: delimiter, quote, or a
line-terminator character. -/
def csvSpecial (c : Char) : Bool :=
  c = ',' || c = '"' || c = '\n' || c = '\r'

/-- Whether QUOTE_MINIMAL quotes this field. -/
def needsQuote (s : List Char) : Bool := s.any csvSpecial

/-- Double every quote character (the CSV escape inside a quoted field). -/
def escapeQuotes : List Char → List Char
  | [] => []
  | c :: cs =>
    if c = '"' then '"' :: '"' :: escapeQuotes cs
    else c :: escapeQuotes cs

/-- Serialise one field, quoting it when needed. -/
def writeCell (s : List Char) : List Char :=
  if needsQuote s then '"' :: (escapeQuotes s ++ ['"']) else s

/-- Serialise the fields of a record joined by the comma delimiter. -/
def writeRowPlain : List (List Char) → List Char
  | [] => []
  | [f] => writeCell f
  | f :: fs => writeCell f ++ ',' :: writeRowPlain fs

/-- Serialise one record.  Following the stdlib `csv` writer (which
`to_csv` uses), a row consisting of a single empty field is written as a
quoted empty field so it is not confused with an empty row. -/
def writeRow (cells : List (List Char)) : List Char :=
  match cells with
  | [f] => if f.isEmpty then '"' :: (escapeQuotes f ++ ['"']) else writeCell f
  | _ => writeRowPlain cells

/-- Serialise the logical records: each line newline-terminated. -/
def writeCsv : List (List (List Char)) → List Char
  | [] => []
  | r :: rs => writeRow r ++ '\n' :: writeCsv rs

/-- Read an unquoted field: everything up to the next delimiter or
newline, which is left in the remainder. -/
def parseUnquoted : List Char → List Char × List Char
  | [] => ([], [])
  | c :: cs =>
    if c = ',' || c = '\n' then ([], c :: cs)
    else
      let p := parseUnquoted cs
      (c :: p.1, p.2)

/-- Read the body of a quoted field (the opening quote already consumed):
a doubled quote contributes one quote to the field, a single quote closes
the field. -/
def parseQuoted : List Char → List Char × List Char
  | [] => ([], [])
  | [c] => if c = '"' then ([], []) else ([c], [])
  | c :: c2 :: cs =>
    if c = '"' then
      if c2 = '"' then
        let p := parseQuoted cs
        ('"' :: p.1, p.2)
      else ([], c2 :: cs)
    else
      let p := parseQuoted (c2 :: cs)
      (c :: p.1, p.2)

/-- Read one field: quoted when it opens with a quote, unquoted otherwise. -/
def parseCell (l : List Char) : List Char × List Char :=
  match l with
  | '"' :: cs => parseQuoted cs
  | _ => parseUnquoted l

theorem parseUnquoted_rest_length (l : List Char) :
    (parseUnquoted l).2.length ≤ l.length := by
  induction l with
  | nil => simp [parseUnquoted]
  | cons c cs ih =>
    simp only [parseUnquoted]
    by_cases h : (c = ',' || c = '\n') = true
    · simp [h]
    · simp only [h]
      simpa using Nat.le_succ_of_le ih

theorem parseQuoted_rest_length (l : List Char) :
    (parseQuoted l).2.length ≤ l.length := by
  induction l using parseQuoted.induct with
  | case1 => simp [parseQuoted]
  | case2 => simp [parseQuoted]
  | case3 c h => simp [parseQuoted, h]
  | case4 cs ih =>
    simp only [parseQuoted, if_pos rfl]
    simpa using Nat.le_succ_of_le (Nat.le_succ_of_le ih)
  | case5 c2 cs h => simp [parseQuoted, h]
  | case6 c c2 cs h ih =>
    simp only [parseQuoted, if_neg h]
    simpa using Nat.le_succ_of_le ih

theorem parseCell_rest_length (l : List Char) :
    (parseCell l).2.length ≤ l.length := by
  match l with
  | '"' :: cs =>
    simpa [parseCell] using Nat.le_succ_of_le (parseQuoted_rest_length cs)
  | [] => simp [parseCell, parseUnquoted]
  | c :: cs =>
    by_cases h : c = '"'
    · subst h
      simpa [parseCell] using Nat.le_succ_of_le (parseQuoted_rest_length cs)
    · have heq : parseCell (c :: cs) = parseUnquoted (c :: cs) := by
        simp only [parseCell]
        split
        · next cs2 hpat =>
            exact absurd (List.head_eq_of_cons_eq hpat) h
        · rfl
      rw [heq]
      exact parseUnquoted_rest_length (c :: cs)

/-- An unquoted field read stops only at the end of input or at a
delimiter/newline, which stays in the remainder. -/
theorem parseUnquoted_rest_shape (l : List Char) :
    (parseUnquoted l).2 = [] ∨
      ∃ r, (parseUnquoted l).2 = ',' :: r ∨ (parseUnquoted l).2 = '\n' :: r := by
  induction l with
  | nil => simp [parseUnquoted]
  | cons c cs ih =>
    by_cases h : (c = ',' || c = '\n') = true
    · rcases Bool.or_eq_true_iff.1 h with h1 | h1
      · have hc : c = ',' := by simpa using h1
        subst hc
        right
        exact ⟨cs, Or.inl (by simp [parseUnquoted])⟩
      · have hc : c = '\n' := by simpa using h1
        subst hc
        right
        exact ⟨cs, Or.inr (by simp [parseUnquoted])⟩
    · simpa [parseUnquoted, h] using ih

/-- Read one record: fields separated by commas, terminated by a newline
or the end of input. -/
def parseRow (l : List Char) : List (List Char) × List Char :=
  match h : (parseCell l).2 with
  | ',' :: r2 =>
    let p := parseRow r2
    ((parseCell l).1 :: p.1, p.2)
  | '\n' :: r2 => ([(parseCell l).1], r2)
  | _ => ([(parseCell l).1], (parseCell l).2)
termination_by l.length
decreasing_by
  have hle := parseCell_rest_length l
  rw [h] at hle
  simp at hle
  omega

theorem parseRow_eq_comma (l r2 : List Char) (h : (parseCell l).2 = ',' :: r2) :
    parseRow l = ((parseCell l).1 :: (parseRow r2).1, (parseRow r2).2) := by
  rw [parseRow.eq_def]
  split
  · next r2' heq =>
      rw [h] at heq
      cases heq
      rfl
  · next r2' heq =>
      rw [h] at heq
      cases heq
  · next hno1 hno2 =>
      exact absurd h (hno1 r2)

theorem parseRow_eq_newline (l r2 : List Char)
    (h : (parseCell l).2 = '\n' :: r2) :
    parseRow l = ([(parseCell l).1], r2) := by
  rw [parseRow.eq_def]
  split
  · next r2' heq =>
      rw [h] at heq
      cases heq
  · next r2' heq =>
      rw [h] at heq
      cases heq
      rfl
  · next hno1 hno2 =>
      exact absurd h (hno2 r2)

theorem parseRow_eq_other (l : List Char)
    (h1 : ∀ r2, (parseCell l).2 ≠ ',' :: r2)
    (h2 : ∀ r2, (parseCell l).2 ≠ '\n' :: r2) :
    parseRow l = ([(parseCell l).1], (parseCell l).2) := by
  rw [parseRow.eq_def]
  split
  · next r2' heq => exact absurd heq (h1 r2')
  · next r2' heq => exact absurd heq (h2 r2')
  · rfl

/-- A field read that does not open with a quote is the unquoted read. -/
theorem parseCell_eq_parseUnquoted (l : List Char)
    (h : ∀ cs, l ≠ '"' :: cs) : parseCell l = parseUnquoted l := by
  rw [parseCell.eq_def]
  split
  · rename_i cs2
    exact absurd rfl (h cs2)
  · rfl

theorem parseRow_rest_le (l : List Char) :
    (parseRow l).2.length ≤ l.length := by
  induction l using parseRow.induct with
  | case1 x r2 h ih =>
    have hle := parseCell_rest_length x
    rw [h] at hle
    rw [parseRow_eq_comma x r2 h]
    dsimp only
    simp only [List.length_cons] at hle
    omega
  | case2 x r2 h =>
    have hle := parseCell_rest_length x
    rw [h] at hle
    rw [parseRow_eq_newline x r2 h]
    dsimp only
    simp only [List.length_cons] at hle
    omega
  | case3 x hno1 hno2 =>
    rw [parseRow_eq_other x (fun r2 => hno1 r2) (fun r2 => hno2 r2)]
    exact parseCell_rest_length x

theorem parseRow_rest_lt (l : List Char) (hl : l ≠ []) :
    (parseRow l).2.length < l.length := by
  rcases hcell : (parseCell l).2 with _ | ⟨c, r2⟩
  · rw [parseRow_eq_other l (by simp [hcell]) (by simp [hcell])]
    rw [hcell]
    simpa using List.length_pos.2 hl
  · by_cases hc : c = ','
    · subst hc
      have hle := parseCell_rest_length l
      rw [hcell] at hle
      rw [parseRow_eq_comma l r2 hcell]
      dsimp only
      have := parseRow_rest_le r2
      simp only [List.length_cons] at hle
      omega
    · by_cases hn : c = '\n'
      · subst hn
        have hle := parseCell_rest_length l
        rw [hcell] at hle
        rw [parseRow_eq_newline l r2 hcell]
        dsimp only
        simp only [List.length_cons] at hle
        omega
      · rw [parseRow_eq_other l
          (by rw [hcell]; intro r2' heq; exact hc (List.head_eq_of_cons_eq heq))
          (by rw [hcell]; intro r2' heq; exact hn (List.head_eq_of_cons_eq heq))]
        rw [hcell]
        match l, hl with
        | '"' :: cs, _ =>
          have := parseQuoted_rest_length cs
          simp only [parseCell] at hcell
          rw [hcell] at this
          simp only [List.length_cons] at this ⊢
          omega
        | a :: cs, _ =>
          by_cases ha : a = '"'
          · subst ha
            have := parseQuoted_rest_length cs
            simp only [parseCell] at hcell
            rw [hcell] at this
            simp only [List.length_cons] at this ⊢
            omega
          · rw [parseCell_eq_parseUnquoted (a :: cs)
              (fun cs2 heq => ha (List.head_eq_of_cons_eq heq))] at hcell
            rcases parseUnquoted_rest_shape (a :: cs) with hsh | ⟨r, hsh | hsh⟩
            · rw [hcell] at hsh
              cases hsh
            · rw [hcell] at hsh
              exact absurd (List.head_eq_of_cons_eq hsh) hc
            · rw [hcell] at hsh
              exact absurd (List.head_eq_of_cons_eq hsh) hn

/-- Read a whole CSV text as a list of records.  A blank line is an
empty record (as the stdlib `csv` reader yields it). -/
def parseCsv (l : List Char) : List (List (List Char)) :=
  match l with
  | [] => []
  | '\n' :: cs => [] :: parseCsv cs
  | c :: cs =>
    (parseRow (c :: cs)).1 :: parseCsv (parseRow (c :: cs)).2
termination_by l.length
decreasing_by
  · simp
  · exact parseRow_rest_lt (c :: cs) (by simp)

theorem parseCsv_blank (cs : List Char) :
    parseCsv ('\n' :: cs) = [] :: parseCsv cs := by
  rw [parseCsv.eq_def]
  rfl

theorem parseCsv_cons (c : Char) (cs : List Char) (hc : c ≠ '\n') :
    parseCsv (c :: cs) =
      (parseRow (c :: cs)).1 :: parseCsv (parseRow (c :: cs)).2 := by
  rw [parseCsv.eq_def]
  split
  · next heq => cases heq
  · next cs2 heq =>
    exact absurd (List.head_eq_of_cons_eq heq) hc
  · next c2 cs2 hne heq =>
    rw [heq]

/-- The remainders a field read may legally be resumed on: end of input,
or a delimiter/newline at the head. -/
def RestOk (rest : List Char) : Prop :=
  rest = [] ∨ ∃ r, rest = ',' :: r ∨ rest = '\n' :: r

theorem parseQuoted_escapeQuotes (s : List Char) :
    ∀ rest, RestOk rest →
      parseQuoted (escapeQuotes s ++ '"' :: rest) = (s, rest) := by
  induction s with
  | nil =>
    intro rest hrest
    rcases hrest with h | ⟨r, h | h⟩ <;> subst h <;>
      simp [escapeQuotes, parseQuoted]
  | cons a s' ih =>
    intro rest hrest
    by_cases ha : a = '"'
    · subst ha
      simp only [escapeQuotes, if_pos rfl, List.cons_append]
      simp [parseQuoted, ih rest hrest]
    · simp only [escapeQuotes, if_neg ha, List.cons_append]
      rcases hsh : escapeQuotes s' ++ '"' :: rest with _ | ⟨b, t⟩
      · exact absurd hsh (by simp)
      · have ihr := ih rest hrest
        rw [hsh] at ihr
        simp [parseQuoted, ha, ihr]

theorem parseUnquoted_clean (s : List Char) :
    ∀ rest, needsQuote s = false → RestOk rest →
      parseUnquoted (s ++ rest) = (s, rest) := by
  induction s with
  | nil =>
    intro rest _ hrest
    rcases hrest with h | ⟨r, h | h⟩ <;> subst h <;> simp [parseUnquoted]
  | cons c s' ih =>
    intro rest hs hrest
    simp only [needsQuote, List.any_cons, Bool.or_eq_false_iff] at hs
    have hc : csvSpecial c = false := hs.1
    simp only [csvSpecial, Bool.or_eq_false_iff, decide_eq_false_iff_not] at hc
    simp only [List.cons_append, parseUnquoted]
    have hcond : (c = ',' || c = '\n') = false := by
      simp [hc.1.1.1, hc.1.2]
    simp only [hcond, Bool.false_eq_true, if_false, List.append_eq]
    rw [ih rest hs.2 hrest]

theorem parseCell_writeCell (s rest : List Char) (hrest : RestOk rest) :
    parseCell (writeCell s ++ rest) = (s, rest) := by
  by_cases hq : needsQuote s = true
  · simp only [writeCell, hq, if_true, List.cons_append, List.append_assoc,
      List.singleton_append]
    simp only [parseCell]
    exact parseQuoted_escapeQuotes s rest hrest
  · replace hq : needsQuote s = false := by simpa using hq
    simp only [writeCell, hq, Bool.false_eq_true, if_false]
    rcases hs : s with _ | ⟨c, s'⟩
    · rcases hrest with h | ⟨r, h | h⟩ <;> subst h <;>
        simp [parseCell, parseUnquoted]
    · have hc : csvSpecial c = false := by
        rw [hs] at hq
        simp only [needsQuote, List.any_cons, Bool.or_eq_false_iff] at hq
        exact hq.1
      have hcq : c ≠ '"' := by
        simp only [csvSpecial, Bool.or_eq_false_iff,
          decide_eq_false_iff_not] at hc
        exact hc.1.1.2
      rw [List.cons_append,
        parseCell_eq_parseUnquoted _ (fun cs2 heq =>
          hcq (List.head_eq_of_cons_eq heq)), ← List.cons_append]
      rw [← hs]
      exact parseUnquoted_clean s rest hq hrest

theorem parseRow_writeRowPlain (cells : List (List Char)) :
    ∀ rest, cells ≠ [] →
      parseRow (writeRowPlain cells ++ '\n' :: rest) = (cells, rest) := by
  induction cells with
  | nil => intro rest h; exact absurd rfl h
  | cons f fs ih =>
    intro rest _
    rcases fs with _ | ⟨f2, fs'⟩
    · have hcell := parseCell_writeCell f ('\n' :: rest)
        (Or.inr ⟨rest, Or.inr rfl⟩)
      rw [show writeRowPlain [f] = writeCell f from rfl]
      rw [parseRow_eq_newline _ rest (by rw [hcell])]
      rw [hcell]
    · rw [show writeRowPlain (f :: f2 :: fs') =
        writeCell f ++ ',' :: writeRowPlain (f2 :: fs') from rfl]
      rw [List.append_assoc, List.cons_append]
      have hcell := parseCell_writeCell f
        (',' :: (writeRowPlain (f2 :: fs') ++ '\n' :: rest))
        (Or.inr ⟨writeRowPlain (f2 :: fs') ++ '\n' :: rest, Or.inl rfl⟩)
      rw [parseRow_eq_comma _ (writeRowPlain (f2 :: fs') ++ '\n' :: rest)
        (by rw [hcell])]
      rw [hcell, ih rest (by simp)]

theorem parseRow_writeRow (cells : List (List Char)) (rest : List Char)
    (h : cells ≠ []) :
    parseRow (writeRow cells ++ '\n' :: rest) = (cells, rest) := by
  rcases cells with _ | ⟨f, fs⟩
  · exact absurd rfl h
  · rcases fs with _ | ⟨f2, fs'⟩
    · by_cases hf : f.isEmpty
      · have hfnil : f = [] := List.isEmpty_iff.1 hf
        subst hfnil
        rw [show writeRow [([] : List Char)] =
          '"' :: (escapeQuotes [] ++ ['"']) from rfl]
        have hq : parseQuoted (escapeQuotes [] ++ '"' :: ('\n' :: rest))
            = ([], '\n' :: rest) :=
          parseQuoted_escapeQuotes [] ('\n' :: rest)
            (Or.inr ⟨rest, Or.inr rfl⟩)
        have hcell : parseCell ('"' :: (escapeQuotes [] ++ ['"'])
            ++ '\n' :: rest) = ([], '\n' :: rest) := by
          rw [List.cons_append, List.append_assoc]
          simpa [parseCell] using hq
        rw [parseRow_eq_newline _ rest (by rw [hcell])]
        rw [hcell]
      · rw [show writeRow [f] = if f.isEmpty then
            '"' :: (escapeQuotes f ++ ['"']) else writeCell f from rfl]
        simp only [hf, Bool.false_eq_true, if_false]
        rw [show writeCell f = writeRowPlain [f] from rfl]
        exact parseRow_writeRowPlain [f] rest (by simp)
    · rw [show writeRow (f :: f2 :: fs') =
        writeRowPlain (f :: f2 :: fs') from rfl]
      exact parseRow_writeRowPlain (f :: f2 :: fs') rest (by simp)

/-- A serialised field is blank only for the empty field, and otherwise
never begins with a newline. -/
theorem writeCell_shape (f : List Char) :
    (writeCell f = [] ∧ f = []) ∨
      ∃ c cs, writeCell f = c :: cs ∧ c ≠ '\n' := by
  by_cases hq : needsQuote f = true
  · right
    exact ⟨'"', escapeQuotes f ++ ['"'], by simp [writeCell, hq], by decide⟩
  · replace hq : needsQuote f = false := by simpa using hq
    rcases f with _ | ⟨c, f'⟩
    · left
      exact ⟨by simp [writeCell, needsQuote], rfl⟩
    · right
      refine ⟨c, f', by simp [writeCell, hq], ?_⟩
      have hc : csvSpecial c = false := by
        simp only [needsQuote, List.any_cons, Bool.or_eq_false_iff] at hq
        exact hq.1
      simp only [csvSpecial, Bool.or_eq_false_iff,
        decide_eq_false_iff_not] at hc
      exact hc.1.2

/-- A nonempty record never serialises to a blank line, and the line
never begins with a newline. -/
theorem writeRow_head (cells : List (List Char)) (h : cells ≠ []) :
    ∃ c cs, writeRow cells = c :: cs ∧ c ≠ '\n' := by
  rcases cells with _ | ⟨f, fs⟩
  · exact absurd rfl h
  · rcases fs with _ | ⟨f2, fs'⟩
    · by_cases hf : f.isEmpty
      · exact ⟨'"', escapeQuotes f ++ ['"'], by simp [writeRow, hf], by decide⟩
      · rcases writeCell_shape f with ⟨_, hnil⟩ | ⟨c, cs, heq, hc⟩
        · subst hnil
          simp at hf
        · exact ⟨c, cs, by simp [writeRow, hf, heq], hc⟩
    · rcases writeCell_shape f with ⟨hcc, _⟩ | ⟨c, cs, heq, hc⟩
      · exact ⟨',', writeRowPlain (f2 :: fs'),
          by simp [writeRow, writeRowPlain, hcc], by decide⟩
      · exact ⟨c, cs ++ ',' :: writeRowPlain (f2 :: fs'),
          by simp [writeRow, writeRowPlain, heq], hc⟩

theorem parseCsv_writeCsv (rows : List (List (List Char))) :
    parseCsv (writeCsv rows) = rows := by
  induction rows with
  | nil =>
    rw [show writeCsv [] = [] from rfl, parseCsv.eq_def]
  | cons r rs ih =>
    rw [show writeCsv (r :: rs) = writeRow r ++ '\n' :: writeCsv rs from rfl]
    rcases hr : r with _ | ⟨f, fs⟩
    · rw [show writeRow [] = [] from rfl, List.nil_append]
      rw [parseCsv_blank, ih]
    · obtain ⟨c, cs, heq, hc⟩ := writeRow_head (f :: fs) (by simp)
      rw [heq, List.cons_append, parseCsv_cons c _ hc,
        ← List.cons_append, ← heq]
      rw [parseRow_writeRow (f :: fs) (writeCsv rs) (by simp)]
      rw [ih]

/-- The text `to_csv` writes for the given logical records. -/
def writeCsvString (records : List (List String)) : String :=
  ⟨writeCsv (records.map (fun r => r.map String.data))⟩

/-- A standard CSV reader applied to a text: the logical records. -/
def parseCsvString (s : String) : List (List String) :=
  (parseCsv s.data).map (fun r => r.map String.mk)

theorem parseCsvString_writeCsvString (records : List (List String)) :
    parseCsvString (writeCsvString records) = records := by
  unfold parseCsvString writeCsvString
  rw [show (String.mk (writeCsv (records.map (fun r => r.map String.data)))).data
      = writeCsv (records.map (fun r => r.map String.data)) from rfl]
  rw [parseCsv_writeCsv]
  have hcomp : String.mk ∘ String.data = id := funext (fun _ => rfl)
  simp [List.map_map, hcomp]

/-- A DataFrame cell as `to_csv` stringifies it: the `NaN` fill of a
missing key and a stored `None` print as the empty string, other values
Python-style. -/
def cellStr : Option Json → String
  | none => ""
  | some .null => ""
  | some (.bool true) => "True"
  | some (.bool false) => "False"
  | some (.num n) => toString n
  | some (.str s) => s
  | some (.arr xs) => (Json.arr xs).pyStr
  | some (.obj kvs) => (Json.obj kvs).pyStr

/-- The logical records `df.to_csv(path, index=False)` serialises: the
column names first, then one line per record with the cells in column
order; no row index column is emitted. -/
def toCsvRecords (df : DataFrame) : List (List String) :=
  df.columns ::
    df.records.map (fun r => df.columns.map (fun c => cellStr (dictGet r c)))

/-- `save_csv`: the full text written to the destination file (the
`mkdir(parents=True, exist_ok=True)` call does not affect the content). -/
def save_csv (df : DataFrame) : String := writeCsvString (toCsvRecords df)

/-- The mocked payload of the end-to-end failure scenario: result code
`INFO-200` with message `No rows`. -/
def noRowsPayload : Dict :=
  [(DEFAULT_SERVICE, .obj
    [("RESULT", .obj [("CODE", .str "INFO-200"), ("MESSAGE", .str "No rows")])])]

/-! ## Column-inference lemmas -/

theorem mem_addCols (ks : List String) :
    ∀ acc k, k ∈ addCols acc ks ↔ k ∈ acc ∨ k ∈ ks := by
  induction ks with
  | nil => intro acc k; simp [addCols]
  | cons a ks' ih =>
    intro acc k
    show k ∈ addCols (if acc.contains a then acc else acc ++ [a]) ks' ↔ _
    by_cases hc : acc.contains a
    · rw [if_pos hc, ih]
      have ha : a ∈ acc := by simpa using hc
      constructor
      · rintro (h | h)
        · exact Or.inl h
        · exact Or.inr (List.mem_cons_of_mem a h)
      · rintro (h | h)
        · exact Or.inl h
        · rcases List.mem_cons.1 h with rfl | h
          · exact Or.inl ha
          · exact Or.inr h
    · rw [if_neg hc, ih]
      simp only [List.mem_append, List.mem_singleton, List.mem_cons]
      tauto

theorem addCols_subset (ks : List String) :
    ∀ acc, (∀ k ∈ ks, k ∈ acc) → addCols acc ks = acc := by
  induction ks with
  | nil => intro acc _; rfl
  | cons a ks' ih =>
    intro acc h
    show addCols (if acc.contains a then acc else acc ++ [a]) ks' = acc
    rw [if_pos (by simpa using h a (by simp))]
    exact ih acc (fun k hk => h k (by simp [hk]))

theorem addCols_disjoint (ks : List String) :
    ∀ acc, ks.Nodup → (∀ k ∈ ks, k ∉ acc) → addCols acc ks = acc ++ ks := by
  induction ks with
  | nil => intro acc _ _; simp [addCols]
  | cons a ks' ih =>
    intro acc hnd hdisj
    show addCols (if acc.contains a then acc else acc ++ [a]) ks' = _
    rw [if_neg (by simpa using hdisj a (by simp))]
    rw [ih (acc ++ [a]) (List.Nodup.of_cons hnd)
      (fun k hk => by
        simp only [List.mem_append, List.mem_singleton]
        rintro (h | rfl)
        · exact hdisj k (by simp [hk]) h
        · exact (List.nodup_cons.1 hnd).1 hk)]
    simp

theorem mem_dataFrameColumns (records : List Dict) :
    ∀ (acc : List String) (k : String),
      (k ∈ records.foldl (fun acc r => addCols acc (recordKeys r)) acc ↔
        k ∈ acc ∨ ∃ r ∈ records, k ∈ recordKeys r) := by
  induction records with
  | nil => intro acc k; simp
  | cons r0 rest ih =>
    intro acc k
    rw [List.foldl_cons, ih, mem_addCols]
    simp only [List.mem_cons]
    constructor
    · rintro ((h | h) | ⟨r, hr, hk⟩)
      · exact Or.inl h
      · exact Or.inr ⟨r0, Or.inl rfl, h⟩
      · exact Or.inr ⟨r, Or.inr hr, hk⟩
    · rintro (h | ⟨r, rfl | hr, hk⟩)
      · exact Or.inl (Or.inl h)
      · exact Or.inl (Or.inr hk)
      · exact Or.inr ⟨r, hr, hk⟩

theorem dataFrameColumns_uniform (r0 : Dict) (rest : List Dict)
    (hnd : (recordKeys r0).Nodup)
    (hsub : ∀ r ∈ rest, ∀ k ∈ recordKeys r, k ∈ recordKeys r0) :
    dataFrameColumns (r0 :: rest) = recordKeys r0 := by
  show List.foldl _ _ (r0 :: rest) = _
  rw [List.foldl_cons]
  have h0 : addCols [] (recordKeys r0) = recordKeys r0 := by
    simpa using addCols_disjoint (recordKeys r0) [] hnd (by simp)
  rw [h0]
  induction rest with
  | nil => rfl
  | cons r rest' ih =>
    rw [List.foldl_cons, addCols_subset _ _ (hsub r (by simp))]
    exact ih (fun r' hr' => hsub r' (by simp [hr']))

/-- Looking every key of a record up in that record returns its own
values, in order, provided the keys are distinct. -/
theorem map_dictGet_self (r : Dict) (hnd : (recordKeys r).Nodup) :
    (recordKeys r).map (fun c => dictGet r c) = r.map (fun kv => some kv.2) := by
  induction r with
  | nil => rfl
  | cons kv r' ih =>
    obtain ⟨hk, hnd'⟩ := List.nodup_cons.1 hnd
    have hhead : dictGet (kv :: r') kv.1 = some kv.2 := by
      simp [dictGet, List.find?_cons]
    have hstep : ∀ c ∈ recordKeys r',
        dictGet (kv :: r') c = dictGet r' c := by
      intro c hc
      have hne : ¬ (kv.1 = c) := by
        intro h
        apply hk
        show kv.1 ∈ List.map (fun kv => kv.1) r'
        rw [h]
        exact hc
      simp [dictGet, List.find?_cons, hne]
    have ih' := ih hnd'
    simp only [recordKeys, List.map_cons] at hstep ih' ⊢
    rw [hhead, List.map_congr_left hstep, ih']

/-! ## Concrete payloads used by the witnesses -/

/-- A successful payload shaped like the spec's end-to-end scenario. -/
def samplePayload : Dict :=
  [(DEFAULT_SERVICE, .obj
    [("RESULT", .obj [("CODE", .str "INFO-000"), ("MESSAGE", .str "OK")]),
     ("row", .arr
       [.obj [("MSRSTE_NM", .str "Jongno"), ("PM10", .str "30")]])])]

/-- The one row record of `samplePayload`. -/
def sampleRow : Json :=
  .obj [("MSRSTE_NM", .str "Jongno"), ("PM10", .str "30")]

/-- A payload whose service entry is an empty (falsy) mapping. -/
def emptyServicePayload : Dict := [("svc", Json.obj [])]

/-- A success-coded payload with no `row` key. -/
def missingRowPayload : Dict :=
  [("svc", .obj
    [("RESULT", .obj [("CODE", .str "INFO-000"), ("MESSAGE", .str "OK")])])]

/-- A success-coded payload whose `row` value is a string, not a list. -/
def rowNotListPayload : Dict :=
  [("svc", .obj
    [("RESULT", .obj [("CODE", .str "INFO-000")]), ("row", .str "oops")])]

/-- A success-coded payload whose `row` value is JSON `null`. -/
def nullRowPayload : Dict :=
  [("svc", .obj
    [("RESULT", .obj [("CODE", .str "INFO-000")]), ("row", Json.null)])]

/-- A truthy service payload with no `RESULT` key. -/
def noResultPayload : Dict :=
  [("svc", .obj [("row", Json.arr [])])]

/-- A truthy service payload whose `RESULT` mapping has no `CODE` key. -/
def noCodePayload : Dict :=
  [("svc", .obj [("RESULT", .obj [("MESSAGE", .str "hi")])])]

/-! ## Claims -/

/-- C1: for every payload and service such that `payload[service]` is a
truthy mapping, `payload[service]["RESULT"]["CODE"]` is `"INFO-000"`, and
`payload[service]["row"]` is a list of N mappings (N ≥ 0), `_extract_rows`
succeeds and returns exactly those N records, unchanged and in order. -/
theorem extract_rows_success_returns_rows
    (service : String) (payload : Dict) (sp rd : Dict) (rows : List Json)
    (hsp : dictGet payload service = some (.obj sp))
    (htr : (Json.obj sp).truthy = true)
    (hres : dictGet sp "RESULT" = some (.obj rd))
    (hcode : dictGet rd "CODE" = some (.str "INFO-000"))
    (hrow : dictGet sp "row" = some (.arr rows))
    (_hmaps : ∀ r ∈ rows, r.isObj = true) :
    extract_rows service payload = .ok rows := by
  simp [extract_rows, hsp, htr, hres, hcode, hrow]

/-- Witness for C1: the sample payload extracts to its one row; the empty
row list also extracts unchanged. -/
theorem extract_rows_success_returns_rows_witness :
    extract_rows DEFAULT_SERVICE samplePayload = .ok [sampleRow] :=
  extract_rows_success_returns_rows DEFAULT_SERVICE samplePayload
    [("RESULT", .obj [("CODE", .str "INFO-000"), ("MESSAGE", .str "OK")]),
     ("row", .arr [sampleRow])]
    [("CODE", .str "INFO-000"), ("MESSAGE", .str "OK")]
    [sampleRow] rfl rfl rfl rfl rfl
    (by intro r hr; simp at hr; subst hr; rfl)

/-- C2: for every payload whose service entry is a truthy mapping and
whose result code is a string other than `"INFO-000"`, `_extract_rows`
fails with the domain API error carrying that code and the remote message,
and the error message contains both verbatim. -/
theorem extract_rows_error_code_reports_api_error
    (service : String) (payload : Dict) (sp rd : Dict) (code msg : String)
    (hsp : dictGet payload service = some (.obj sp))
    (htr : (Json.obj sp).truthy = true)
    (hres : dictGet sp "RESULT" = some (.obj rd))
    (hcode : dictGet rd "CODE" = some (.str code))
    (hne : code ≠ "INFO-000")
    (hmsg : dictGet rd "MESSAGE" = some (.str msg)) :
    extract_rows service payload =
      .error (.seoulOpenAPIError
        (.apiError (some (.str code)) (some (.str msg)))) ∧
    (ApiFailure.apiError (some (.str code)) (some (.str msg))).message =
      "API returned error " ++ code ++ ": " ++ msg := by
  refine ⟨?_, ?_⟩
  · simp [extract_rows, hsp, htr, hres, hcode, hmsg, hne]
  · simp [ApiFailure.message, pyStrOpt, Json.pyStr]

/-- Witness for C2: the `INFO-200` mock payload produces the API error
with its message assembled around the code and message. -/
theorem extract_rows_error_code_reports_api_error_witness :
    extract_rows DEFAULT_SERVICE noRowsPayload =
      .error (.seoulOpenAPIError
        (.apiError (some (.str "INFO-200")) (some (.str "No rows")))) ∧
    (ApiFailure.apiError (some (.str "INFO-200"))
        (some (.str "No rows"))).message =
      "API returned error " ++ "INFO-200" ++ ": " ++ "No rows" :=
  extract_rows_error_code_reports_api_error DEFAULT_SERVICE noRowsPayload
    [("RESULT", .obj [("CODE", .str "INFO-200"), ("MESSAGE", .str "No rows")])]
    [("CODE", .str "INFO-200"), ("MESSAGE", .str "No rows")]
    "INFO-200" "No rows" rfl rfl rfl rfl (by decide) rfl

/-- C3: the non-code failure branches of `_extract_rows`: an absent or
falsy service payload fails with the service-payload-missing error; a
success-coded payload without a `row` key fails with the missing-row-field
error; a `row` value that is neither `null` nor a list fails with the
row-field-not-a-list error; the service check precedes the code check,
which precedes the row checks (a bad code wins over a missing row); and
the three diagnostics are pairwise distinguishable, both as error values
and as message strings. -/
theorem extract_rows_failure_branches :
    (∀ (service : String) (payload : Dict),
        dictGet payload service = none →
        extract_rows service payload =
          .error (.seoulOpenAPIError .servicePayloadMissing)) ∧
    (∀ (service : String) (payload : Dict) (sp : Json),
        dictGet payload service = some sp → sp.truthy = false →
        extract_rows service payload =
          .error (.seoulOpenAPIError .servicePayloadMissing)) ∧
    (∀ (service : String) (payload : Dict) (sp rd : Dict),
        dictGet payload service = some (.obj sp) →
        (Json.obj sp).truthy = true →
        dictGet sp "RESULT" = some (.obj rd) →
        dictGet rd "CODE" = some (.str "INFO-000") →
        dictGet sp "row" = none →
        extract_rows service payload =
          .error (.seoulOpenAPIError .missingRowField)) ∧
    (∀ (service : String) (payload : Dict) (sp rd : Dict) (v : Json),
        dictGet payload service = some (.obj sp) →
        (Json.obj sp).truthy = true →
        dictGet sp "RESULT" = some (.obj rd) →
        dictGet rd "CODE" = some (.str "INFO-000") →
        dictGet sp "row" = some v →
        v ≠ .null → (∀ xs, v ≠ .arr xs) →
        extract_rows service payload =
          .error (.seoulOpenAPIError .rowNotList)) ∧
    (∀ (service : String) (payload : Dict) (sp rd : Dict) (code : String),
        dictGet payload service = some (.obj sp) →
        (Json.obj sp).truthy = true →
        dictGet sp "RESULT" = some (.obj rd) →
        dictGet rd "CODE" = some (.str code) → code ≠ "INFO-000" →
        dictGet sp "row" = none →
        extract_rows service payload =
          .error (.seoulOpenAPIError
            (.apiError (some (.str code)) (dictGet rd "MESSAGE")))) ∧
    ((ApiFailure.servicePayloadMissing ≠ ApiFailure.missingRowField ∧
      ApiFailure.servicePayloadMissing ≠ ApiFailure.rowNotList ∧
      ApiFailure.missingRowField ≠ ApiFailure.rowNotList) ∧
     (ApiFailure.servicePayloadMissing.message ≠
        ApiFailure.missingRowField.message ∧
      ApiFailure.servicePayloadMissing.message ≠
        ApiFailure.rowNotList.message ∧
      ApiFailure.missingRowField.message ≠ ApiFailure.rowNotList.message)) := by
  refine ⟨?_, ?_, ?_, ?_, ?_, ⟨?_, ?_, ?_⟩, ?_, ?_, ?_⟩
  · intro service payload h
    simp [extract_rows, h]
  · intro service payload sp hsp htr
    simp [extract_rows, hsp, htr]
  · intro service payload sp rd hsp htr hres hcode hrow
    simp [extract_rows, hsp, htr, hres, hcode, hrow]
  · intro service payload sp rd v hsp htr hres hcode hrow hnull harr
    rcases v with _ | b | n | s | xs | kvs
    · exact absurd rfl hnull
    · simp [extract_rows, hsp, htr, hres, hcode, hrow]
    · simp [extract_rows, hsp, htr, hres, hcode, hrow]
    · simp [extract_rows, hsp, htr, hres, hcode, hrow]
    · exact absurd rfl (harr xs)
    · simp [extract_rows, hsp, htr, hres, hcode, hrow]
  · intro service payload sp rd code hsp htr hres hcode hne _hrow
    simp [extract_rows, hsp, htr, hres, hcode, hne]
  · simp
  · simp
  · simp
  · decide
  · decide
  · decide

/-- Witness for C3: each failure branch exercised on a concrete payload. -/
theorem extract_rows_failure_branches_witness :
    extract_rows "svc" [] =
      .error (.seoulOpenAPIError .servicePayloadMissing) ∧
    extract_rows "svc" emptyServicePayload =
      .error (.seoulOpenAPIError .servicePayloadMissing) ∧
    extract_rows "svc" missingRowPayload =
      .error (.seoulOpenAPIError .missingRowField) ∧
    extract_rows "svc" rowNotListPayload =
      .error (.seoulOpenAPIError .rowNotList) :=
  ⟨extract_rows_failure_branches.1 "svc" [] rfl,
   extract_rows_failure_branches.2.1 "svc" emptyServicePayload
     (Json.obj []) rfl rfl,
   extract_rows_failure_branches.2.2.1 "svc" missingRowPayload
     [("RESULT", .obj [("CODE", .str "INFO-000"), ("MESSAGE", .str "OK")])]
     [("CODE", .str "INFO-000"), ("MESSAGE", .str "OK")]
     rfl rfl rfl rfl rfl,
   extract_rows_failure_branches.2.2.2.1 "svc" rowNotListPayload
     [("RESULT", .obj [("CODE", .str "INFO-000")]), ("row", .str "oops")]
     [("CODE", .str "INFO-000")] (.str "oops")
     rfl rfl rfl rfl rfl (by simp) (by simp)⟩

/-- C9: a truthy service mapping with no `RESULT` key, or whose `RESULT`
mapping lacks a `CODE` key, makes `_extract_rows` fail with the declared
domain API error (the absent code/message reported as `None`), never with
an uncaught attribute/key-lookup exception. -/
theorem extract_rows_guarded_result_lookup :
    (∀ (service : String) (payload : Dict) (sp : Dict),
        dictGet payload service = some (.obj sp) →
        (Json.obj sp).truthy = true →
        dictGet sp "RESULT" = none →
        extract_rows service payload =
          .error (.seoulOpenAPIError (.apiError none none))) ∧
    (∀ (service : String) (payload : Dict) (sp rd : Dict),
        dictGet payload service = some (.obj sp) →
        (Json.obj sp).truthy = true →
        dictGet sp "RESULT" = some (.obj rd) →
        dictGet rd "CODE" = none →
        extract_rows service payload =
          .error (.seoulOpenAPIError
            (.apiError none (dictGet rd "MESSAGE")))) ∧
    (∀ (c m : Option Json),
        PyExc.seoulOpenAPIError (.apiError c m) ≠ PyExc.attributeError) := by
  refine ⟨?_, ?_, ?_⟩
  · intro service payload sp hsp htr hres
    simp [extract_rows, hsp, htr, hres,
      show dictGet [] "CODE" = none from rfl,
      show dictGet [] "MESSAGE" = none from rfl]
  · intro service payload sp rd hsp htr hres hcode
    simp [extract_rows, hsp, htr, hres, hcode]
  · intro c m
    simp

/-- Witness for C9: the payloads lacking `RESULT` and lacking `CODE` both
surface the domain API error with `None` in place of the code. -/
theorem extract_rows_guarded_result_lookup_witness :
    extract_rows "svc" noResultPayload =
      .error (.seoulOpenAPIError (.apiError none none)) ∧
    extract_rows "svc" noCodePayload =
      .error (.seoulOpenAPIError
        (.apiError none (some (.str "hi")))) :=
  ⟨extract_rows_guarded_result_lookup.1 "svc" noResultPayload
     [("row", Json.arr [])] rfl rfl rfl,
   extract_rows_guarded_result_lookup.2.1 "svc" noCodePayload
     [("RESULT", .obj [("MESSAGE", .str "hi")])]
     [("MESSAGE", .str "hi")] rfl rfl rfl rfl⟩

/-- C10: a success-coded payload whose `row` key holds JSON `null` fails
with the missing-row-field error, exactly as when the key is absent, and
not with the row-field-not-a-list error. -/
theorem extract_rows_null_row_is_missing_row :
    (∀ (service : String) (payload : Dict) (sp rd : Dict),
        dictGet payload service = some (.obj sp) →
        (Json.obj sp).truthy = true →
        dictGet sp "RESULT" = some (.obj rd) →
        dictGet rd "CODE" = some (.str "INFO-000") →
        dictGet sp "row" = some .null →
        extract_rows service payload =
          .error (.seoulOpenAPIError .missingRowField)) ∧
    (∀ (service : String) (payload : Dict) (sp rd : Dict),
        dictGet payload service = some (.obj sp) →
        (Json.obj sp).truthy = true →
        dictGet sp "RESULT" = some (.obj rd) →
        dictGet rd "CODE" = some (.str "INFO-000") →
        dictGet sp "row" = none →
        extract_rows service payload =
          .error (.seoulOpenAPIError .missingRowField)) ∧
    ApiFailure.missingRowField ≠ ApiFailure.rowNotList := by
  refine ⟨?_, ?_, ?_⟩
  · intro service payload sp rd hsp htr hres hcode hrow
    simp [extract_rows, hsp, htr, hres, hcode, hrow]
  · intro service payload sp rd hsp htr hres hcode hrow
    simp [extract_rows, hsp, htr, hres, hcode, hrow]
  · simp

/-- Witness for C10: the `null`-row payload and the absent-row payload
produce the same missing-row-field error. -/
theorem extract_rows_null_row_is_missing_row_witness :
    extract_rows "svc" nullRowPayload =
      .error (.seoulOpenAPIError .missingRowField) ∧
    extract_rows "svc" missingRowPayload =
      .error (.seoulOpenAPIError .missingRowField) :=
  ⟨extract_rows_null_row_is_missing_row.1 "svc" nullRowPayload
     [("RESULT", .obj [("CODE", .str "INFO-000")]), ("row", Json.null)]
     [("CODE", .str "INFO-000")] rfl rfl rfl rfl rfl,
   extract_rows_null_row_is_missing_row.2.1 "svc" missingRowPayload
     [("RESULT", .obj [("CODE", .str "INFO-000"), ("MESSAGE", .str "OK")])]
     [("CODE", .str "INFO-000"), ("MESSAGE", .str "OK")]
     rfl rfl rfl rfl rfl⟩

/-- C8: a failing stage aborts the run with no output file written for any
stage not yet reached: an HTTP/decode failure and an extraction failure
write nothing, a CSV-write failure prevents the image write, and in
particular the mocked `INFO-200`/`No rows` payload aborts before either
file with an error message containing both the code and the message. -/
theorem run_main_aborts_on_failure :
    (∀ (service : String) (c i : Bool),
        run_main service (.error ()) c i = ([], some .httpError)) ∧
    (∀ (service : String) (payload : Dict) (c i : Bool) (e : PyExc),
        extract_rows service payload = .error e →
        run_main service (.ok payload) c i = ([], some (.fetchError e))) ∧
    (∀ (service : String) (payload : Dict) (i : Bool) (rows : List Json),
        extract_rows service payload = .ok rows →
        run_main service (.ok payload) false i = ([], some .csvError)) ∧
    (∀ (service : String) (payload : Dict) (rows : List Json),
        extract_rows service payload = .ok rows →
        run_main service (.ok payload) true false =
          ([.wroteCsv], some .imageError)) ∧
    (∀ (c i : Bool),
        run_main DEFAULT_SERVICE (.ok noRowsPayload) c i =
          ([], some (.fetchError (.seoulOpenAPIError
            (.apiError (some (.str "INFO-200")) (some (.str "No rows"))))))) ∧
    (ApiFailure.apiError (some (.str "INFO-200"))
        (some (.str "No rows"))).message =
      "API returned error INFO-200: No rows" := by
  have hx : extract_rows DEFAULT_SERVICE noRowsPayload =
      .error (.seoulOpenAPIError
        (.apiError (some (.str "INFO-200")) (some (.str "No rows")))) := by
    rfl
  refine ⟨?_, ?_, ?_, ?_, ?_, ?_⟩
  · intro service c i
    rfl
  · intro service payload c i e h
    simp [run_main, h]
  · intro service payload i rows h
    simp [run_main, h]
  · intro service payload rows h
    simp [run_main, h]
  · intro c i
    simp [run_main, hx]
  · rfl

/-- Witness for C8: the mocked failure run writes nothing, and a CSV
failure on the successful sample payload stops before the image write. -/
theorem run_main_aborts_on_failure_witness :
    run_main DEFAULT_SERVICE (.ok noRowsPayload) true true =
      ([], some (.fetchError (.seoulOpenAPIError
        (.apiError (some (.str "INFO-200")) (some (.str "No rows")))))) ∧
    run_main DEFAULT_SERVICE (.ok samplePayload) false true =
      ([], some .csvError) ∧
    run_main DEFAULT_SERVICE (.ok samplePayload) true false =
      ([.wroteCsv], some .imageError) :=
  ⟨run_main_aborts_on_failure.2.2.2.2.1 true true,
   run_main_aborts_on_failure.2.2.1 DEFAULT_SERVICE samplePayload true
     [sampleRow] rfl,
   run_main_aborts_on_failure.2.2.2.1 DEFAULT_SERVICE samplePayload
     [sampleRow] rfl⟩

/-- C5: `build_request_url` returns exactly the fixed template
`http://openAPI.seoul.go.kr:8088/{api_key}/{payload_format}/{service}/{start_index}/{end_index}/`
with each argument at its documented slot and a trailing slash; it is a
pure function of its arguments, so equal arguments give identical text. -/
theorem build_request_url_template (api_key service : String)
    (start_index end_index : Int) (payload_format : String) :
    build_request_url api_key service start_index end_index payload_format =
      "http://openAPI.seoul.go.kr:8088/" ++ api_key ++ "/" ++
        payload_format ++ "/" ++ service ++ "/" ++ toString start_index ++
        "/" ++ toString end_index ++ "/" := by
  have hts : ∀ s : String, toString s = s := fun _ => rfl
  simp [build_request_url, String.append_assoc, hts]

/-- C4 counterexample: for the rows `[{"a": "1"}, {"b": "2"}]` the
constructed DataFrame's columns are `["a", "b"]`, not just the first
record's keys `["a"]` — a key carried only by a later record does appear
as an additional column. -/
theorem dataFrameColumns_counterexample :
    (mkDataFrame [[("a", Json.str "1")], [("b", Json.str "2")]]).columns
        = ["a", "b"] ∧
    (mkDataFrame [[("a", Json.str "1")], [("b", Json.str "2")]]).columns
        ≠ recordKeys [("a", Json.str "1")] := by
  exact ⟨rfl, by decide⟩

/-- C4 (amended): for every extracted row list, the columns of the
constructed Table are the union of the keys seen across all records, in
order of first appearance; in particular, when every later record's keys
already appear in the first record, the columns are exactly the first
record's keys in that record's order. -/
theorem dataFrameColumns_first_seen_union :
    (∀ (records : List Dict) (k : String),
        k ∈ (mkDataFrame records).columns ↔
          ∃ r ∈ records, k ∈ recordKeys r) ∧
    (∀ (r0 : Dict) (rest : List Dict),
        (recordKeys r0).Nodup →
        (∀ r ∈ rest, ∀ k ∈ recordKeys r, k ∈ recordKeys r0) →
        (mkDataFrame (r0 :: rest)).columns = recordKeys r0) := by
  constructor
  · intro records k
    show k ∈ dataFrameColumns records ↔ _
    simpa [dataFrameColumns] using mem_dataFrameColumns records [] k
  · intro r0 rest hnd hsub
    exact dataFrameColumns_uniform r0 rest hnd hsub

/-- Witness for C4: membership in the union on the two-record example,
and the uniform two-column example keeping the first record's key order. -/
theorem dataFrameColumns_first_seen_union_witness :
    ("b" ∈ (mkDataFrame [[("a", Json.str "1")], [("b", Json.str "2")]]).columns
        ↔ ∃ r ∈ [[("a", Json.str "1")], [("b", Json.str "2")]],
            "b" ∈ recordKeys r) ∧
    (mkDataFrame [[("b", Json.str "1"), ("a", Json.str "2")],
        [("a", Json.str "3"), ("b", Json.str "4")]]).columns =
      recordKeys [("b", Json.str "1"), ("a", Json.str "2")] :=
  ⟨dataFrameColumns_first_seen_union.1
     [[("a", Json.str "1")], [("b", Json.str "2")]] "b",
   dataFrameColumns_first_seen_union.2
     [("b", Json.str "1"), ("a", Json.str "2")]
     [[("a", Json.str "3"), ("b", Json.str "4")]]
     (by decide) (by decide)⟩

/-- C6 counterexample: with `max_rows = -1` (an integer the claim
quantifies over) and a two-row Table, the rendered grid displays one data
row — pandas `head(-1)` drops rows from the end — which is not "at most
`max_rows` data rows". -/
theorem render_table_image_counterexample :
    (render_table_image
        (mkDataFrame [[("a", Json.str "x")], [("a", Json.str "y")]])
        (some (-1))).2.length = 1 ∧
    ¬ (((render_table_image
        (mkDataFrame [[("a", Json.str "x")], [("a", Json.str "y")]])
        (some (-1))).2.length : Int) ≤ -1) := by
  exact ⟨rfl, by decide⟩

/-- C6 (amended): for every Table and every nonnegative integer
`max_rows`, the rendered grid shows the column headers plus at most
`max_rows` data rows — the first `max_rows` rows in order, the rest
silently dropped with no ellipsis row; `max_rows = None` disables
truncation and displays every row.  (A negative `max_rows` instead drops
rows from the end, per pandas `head` semantics.) -/
theorem render_table_image_truncation :
    (∀ (df : DataFrame) (m : Int), 0 ≤ m →
        render_table_image df (some m) =
          (df.columns, (df.records.take m.toNat).map
            (fun r => df.columns.map (fun c => dictGet r c)))) ∧
    (∀ df : DataFrame, render_table_image df none = (df.columns, dfValues df)) := by
  constructor
  · intro df m hm
    show (df.columns, dfValues ⟨df.columns, _⟩) = _
    by_cases hlen : (df.records.length : Int) > m
    · simp only [hlen, if_true, dfHead, hm, if_pos]
      rfl
    · simp only [hlen, if_false]
      have hle : df.records.length ≤ m.toNat :=
        (Int.le_toNat hm).2 (not_lt.1 hlen)
      rw [List.take_of_length_le hle]
      rfl
  · intro df
    rfl

/-- Witness for C6: a 20-row table with `max_rows = 15` displays exactly
the first 15 rows, and `max_rows = None` displays all 20. -/
theorem render_table_image_truncation_witness :
    (render_table_image
        (mkDataFrame (List.replicate 20 [("a", Json.str "v")]))
        (some 15) =
      ((mkDataFrame (List.replicate 20 [("a", Json.str "v")])).columns,
        ((mkDataFrame (List.replicate 20 [("a", Json.str "v")])).records.take
            (15 : Int).toNat).map
          (fun r =>
            (mkDataFrame (List.replicate 20 [("a", Json.str "v")])).columns.map
              (fun c => dictGet r c)))) ∧
    render_table_image
        (mkDataFrame (List.replicate 20 [("a", Json.str "v")])) none =
      ((mkDataFrame (List.replicate 20 [("a", Json.str "v")])).columns,
        dfValues (mkDataFrame (List.replicate 20 [("a", Json.str "v")]))) :=
  ⟨render_table_image_truncation.1
     (mkDataFrame (List.replicate 20 [("a", Json.str "v")])) 15 (by decide),
   render_table_image_truncation.2
     (mkDataFrame (List.replicate 20 [("a", Json.str "v")]))⟩

/-- C7: `save_csv` writes the column names (first-seen order) as the
header, then one line per record with no row index column, and re-parsing
the written text with a standard CSV reader recovers exactly those logical
records; for uniform records the recovered data lines are the records'
own cell values, stringified, in their own order. -/
theorem save_csv_round_trip :
    (∀ (records : List Dict),
        parseCsvString (save_csv (mkDataFrame records)) =
          toCsvRecords (mkDataFrame records) ∧
        toCsvRecords (mkDataFrame records) =
          dataFrameColumns records ::
            records.map (fun r =>
              (dataFrameColumns records).map
                (fun c => cellStr (dictGet r c)))) ∧
    (∀ (r0 : Dict) (rest : List Dict),
        (recordKeys r0).Nodup →
        (∀ r ∈ r0 :: rest, recordKeys r = recordKeys r0) →
        parseCsvString (save_csv (mkDataFrame (r0 :: rest))) =
          recordKeys r0 ::
            (r0 :: rest).map (fun r =>
              r.map (fun kv => cellStr (some kv.2)))) := by
  constructor
  · intro records
    exact ⟨parseCsvString_writeCsvString (toCsvRecords (mkDataFrame records)),
           rfl⟩
  · intro r0 rest hnd hkeys
    rw [show save_csv (mkDataFrame (r0 :: rest)) =
      writeCsvString (toCsvRecords (mkDataFrame (r0 :: rest))) from rfl]
    rw [parseCsvString_writeCsvString]
    have hcols : dataFrameColumns (r0 :: rest) = recordKeys r0 :=
      dataFrameColumns_uniform r0 rest hnd
        (fun r hr k hk => by
          rw [hkeys r (by simp [hr])] at hk
          exact hk)
    show dataFrameColumns (r0 :: rest) ::
        (r0 :: rest).map (fun r =>
          (dataFrameColumns (r0 :: rest)).map
            (fun c => cellStr (dictGet r c))) = _
    rw [hcols]
    congr 1
    apply List.map_congr_left
    intro r hr
    have hkr : recordKeys r = recordKeys r0 := hkeys r hr
    have hndr : (recordKeys r).Nodup := by rw [hkr]; exact hnd
    calc (recordKeys r0).map (fun c => cellStr (dictGet r c))
        = (recordKeys r).map (fun c => cellStr (dictGet r c)) := by rw [hkr]
      _ = ((recordKeys r).map (fun c => dictGet r c)).map cellStr := by
          rw [List.map_map]; rfl
      _ = (r.map (fun kv => some kv.2)).map cellStr := by
          rw [map_dictGet_self r hndr]
      _ = r.map (fun kv => cellStr (some kv.2)) := by
          rw [List.map_map]; rfl

/-- Witness for C7: a two-record uniform table whose values contain the
delimiter, the quote character and an empty string survives the
export/parse round trip, yielding the records' own values. -/
theorem save_csv_round_trip_witness :
    parseCsvString (save_csv (mkDataFrame
        [[("name", Json.str "Jong,no"), ("pm", Json.str "3\"0")],
         [("name", Json.str ""), ("pm", Json.str "B")]])) =
      recordKeys [("name", Json.str "Jong,no"), ("pm", Json.str "3\"0")] ::
        [[("name", Json.str "Jong,no"), ("pm", Json.str "3\"0")],
         [("name", Json.str ""), ("pm", Json.str "B")]].map (fun r =>
          r.map (fun kv => cellStr (some kv.2))) :=
  save_csv_round_trip.2
    [("name", Json.str "Jong,no"), ("pm", Json.str "3\"0")]
    [[("name", Json.str ""), ("pm", Json.str "B")]]
    (by decide) (by decide)

end DataTableCollector
